import Mathlib

/-!
Verification of the logging health-check core
(`roles/openshift_health_checker/openshift_checks/logging/logging.py`).

The Python module is shallowly embedded below:

* Python dictionary fields that the code reads with `d.get(k)` / `d[k]`
  are embedded as `Option` fields (`Option.none` = key absent; a bare
  `d[k]` access on an absent key is a lookup error).
* Python truthiness is made explicit (`pyTruthy`, `jTruthy`).
* Exceptions are embedded as `Except` results.
* External collaborators (the Ansible task executor, the JSON parser of
  the standard library) are parameters of the embedded functions.
-/

/-! ## Task-variable store and the two gate predicates -/

/-- A scalar inventory value: the Python values `None`, strings and booleans. -/
inductive PyScalar where
  | null
  | str (s : String)
  | bool (b : Bool)
deriving DecidableEq, Repr

/-- An inventory value: a scalar or a list of scalars (enough for the values
the logging check reads: host addresses, inventory groups, feature flags). -/
inductive PyVal where
  | scalar (v : PyScalar)
  | list (xs : List PyScalar)
deriving DecidableEq, Repr

/-- Python truthiness for the embedded values: `None` and `False` are falsy,
strings and lists are truthy iff non-empty. -/
def pyTruthy : PyVal → Bool
  | PyVal.scalar PyScalar.null => false
  | PyVal.scalar (PyScalar.str s) => !s.isEmpty
  | PyVal.scalar (PyScalar.bool b) => b
  | PyVal.list xs => !xs.isEmpty

/-- Python `a or b`: returns `a` when `a` is truthy, else `b`. -/
def pyOr (a b : PyVal) : PyVal := if pyTruthy a then a else b

/-- Modelled from the spec: the Variable Resolver (`get_var`, defined outside
this excerpt) is a hierarchical lookup returning the stored value, or the
default (`None` when no default is given) when the path is unresolved.
`TaskVars` keeps exactly the paths the logging check reads. -/
structure TaskVars where
  ansible_ssh_host : Option PyVal
  groups_masters : Option (List PyScalar)
  openshift_hosted_logging_deploy : Option PyVal
  openshift_common_config_base : String
deriving DecidableEq, Repr

/-- The host identity as `is_first_master` computes it:
`get_var(task_vars, "ansible_ssh_host") or [None]`. -/
def hostnameResolved (tv : TaskVars) : PyVal :=
  pyOr (tv.ansible_ssh_host.getD (PyVal.scalar PyScalar.null))
    (PyVal.list [PyScalar.null])

/-- The master list as `is_first_master` computes it:
`get_var(task_vars, "groups", "masters", default=None) or [None]`. -/
def mastersResolved (tv : TaskVars) : List PyScalar :=
  match tv.groups_masters with
  | Option.none => [PyScalar.null]
  | Option.some xs => if xs.isEmpty then [PyScalar.null] else xs

/-- Embedding of `LoggingCheck.is_first_master`:
`return masters and masters[0] == hostname`. After the `or [None]`
fallbacks the list is never empty, so the Python expression always
evaluates to the boolean comparison result. -/
def is_first_master (tv : TaskVars) : Bool :=
  !(mastersResolved tv).isEmpty &&
    (PyVal.scalar ((mastersResolved tv).headD PyScalar.null) == hostnameResolved tv)

/-- Embedding of `LoggingCheck.is_active`. The base-class predicate
`super().is_active(task_vars)` is outside this excerpt and is modelled from
the spec as an arbitrary boolean parameter (the spec assumes it given).
Python `a and b and c` returns the first falsy operand, so when the chain
stops at a boolean predicate the result is the Python `False` object. -/
def is_active (base_is_active : Bool) (tv : TaskVars) : PyVal :=
  let logging_deployed :=
    tv.openshift_hosted_logging_deploy.getD (PyVal.scalar (PyScalar.bool false))
  if base_is_active = false then PyVal.scalar (PyScalar.bool false)
  else if is_first_master tv = false then PyVal.scalar (PyScalar.bool false)
  else logging_deployed

/-! ## The transport wrapper `exec_oc` -/

/-- Result dictionary returned by the external command executor.
`failed` is read with `.get` (absent = falsy = `false` here); `result` is
read with a bare index on the failure path and with `.get("result", "")`
on the success path, so it is kept optional. -/
structure ExecResult where
  failed : Bool
  result : Option String
deriving DecidableEq, Repr

/-- The argument bundle `exec_oc` builds for the `ocutil` module.
(`ns` embeds the Python key `"namespace"`, which is a Lean keyword.) -/
structure OcArgs where
  ns : String
  config_file : String
  cmd : String
  extra_args : List String
deriving DecidableEq, Repr

/-- Exceptions the embedded code can raise: the domain error
`OpenShiftCheckException`, and the lookup errors of raw dictionary or
attribute access. -/
inductive PException where
  | checkException (msg : String)
  | keyError
  | attrError
deriving DecidableEq, Repr

/-- The literal error text special-cased by `exec_oc`. -/
def errnoMsg : String := "[Errno 2] No such file or directory"

/-- The generic failure diagnostic of `exec_oc`, with the command string and
the raw error text interpolated. -/
def genericOcError (cmd error : String) : String :=
  "Unexpected error using `oc` to validate the logging stack components.\nError executing `oc "
    ++ cmd ++ "`:\n" ++ error

/-- The special-cased message for a missing `oc` binary. -/
def masterMissingOcMsg : String :=
  "This host is supposed to be a master but does not have the `oc` command where expected.\nHas an installation been run on this host yet?"

/-- The argument bundle built inside `exec_oc`
(`config_file` is `os.path.join(config_base, "master", "admin.kubeconfig")`). -/
def ocArgs (ns cmd_str : String) (extra_args : List String) (config_base : String) : OcArgs :=
  { ns := ns
    config_file := config_base ++ "/master/admin.kubeconfig"
    cmd := cmd_str
    extra_args := extra_args }

/-- Embedding of `LoggingCheck.exec_oc`. The executor is a parameter
(operation name and argument bundle in, `ExecResult` out). On a failed
result the generic diagnostic is built from `args["cmd"]` and
`result["result"]` (a bare lookup: absent key = `keyError`), replaced by
the special message when the error text equals `errnoMsg`; the chosen
message is raised as `OpenShiftCheckException`. On success the `result`
field is returned, defaulting to `""`. -/
def exec_oc (execute_module : String → OcArgs → ExecResult)
    (ns cmd_str : String) (extra_args : List String) (config_base : String) :
    Except PException String :=
  let result := execute_module "ocutil" (ocArgs ns cmd_str extra_args config_base)
  if result.failed then
    match result.result with
    | Option.none => Except.error PException.keyError
    | Option.some err =>
      let msg := genericOcError cmd_str err
      let msg := if err = errnoMsg then masterMissingOcMsg else msg
      Except.error (PException.checkException msg)
  else
    Except.ok (result.result.getD "")

/-- Tests whether an embedded `exec_oc` outcome is a raised domain error
(`OpenShiftCheckException`). -/
def isDomainError : Except PException String → Bool
  | Except.error (PException.checkException _) => true
  | _ => false

/-! ## JSON values and `get_pods_for_component` -/

/-- A parsed JSON value, as returned by the standard-library parser. -/
inductive JValue where
  | null
  | bool (b : Bool)
  | num (n : Int)
  | str (s : String)
  | arr (xs : List JValue)
  | obj (fields : List (String × JValue))

/-- Python truthiness of a parsed JSON value. -/
def jTruthy : JValue → Bool
  | JValue.null => false
  | JValue.bool b => b
  | JValue.num n => n != 0
  | JValue.str s => !s.isEmpty
  | JValue.arr xs => !xs.isEmpty
  | JValue.obj fields => !fields.isEmpty

/-- Dictionary `.get` on a parsed JSON object (first binding wins);
`Option.none` for a missing key. Non-objects have no `.get`. -/
def jGet (v : JValue) (key : String) : Option JValue :=
  match v with
  | JValue.obj fields => fields.lookup key
  | _ => Option.none

/-- The non-fatal message of `get_pods_for_component`, with the component
label interpolated. -/
def noPodsMsg (logging_component : String) : String :=
  "No pods were found for the \"" ++ logging_component ++ "\" logging component."

/-- Embedding of `LoggingCheck.get_pods_for_component`. The JSON parser is
a parameter (`Option.none` = `ValueError`). A parse failure, a falsy parse
result, or an object with a falsy or missing `items` entry all take the
`ValueError` path and return the non-fatal `(None, message)` pair; an
object with a truthy `items` entry returns `(items, None)`. A truthy
non-object reaches `pods.get("items")` and raises `AttributeError`;
a transport failure propagates the `exec_oc` exception. -/
def get_pods_for_component (execute_module : String → OcArgs → ExecResult)
    (json_loads : String → Option JValue)
    (ns logging_component : String) (config_base : String) :
    Except PException (Option JValue × Option String) :=
  match exec_oc execute_module ns
      ("get pods -l component=" ++ logging_component ++ " -o json") [] config_base with
  | Except.error e => Except.error e
  | Except.ok pod_output =>
    match json_loads pod_output with
    | Option.none =>
      Except.ok (Option.none, Option.some (noPodsMsg logging_component))
    | Option.some pods =>
      if jTruthy pods = false then
        Except.ok (Option.none, Option.some (noPodsMsg logging_component))
      else
        match pods with
        | JValue.obj fields =>
          match jGet (JValue.obj fields) "items" with
          | Option.none =>
            Except.ok (Option.none, Option.some (noPodsMsg logging_component))
          | Option.some items =>
            if jTruthy items = false then
              Except.ok (Option.none, Option.some (noPodsMsg logging_component))
            else
              Except.ok (Option.some items, Option.none)
        | _ => Except.error PException.attrError

/-! ## Pods and the classifier `not_running_pods` -/

/-- One entry of `status.containerStatuses`; the `ready` field is kept
optional because the code reads it with a bare index. -/
structure ContainerStatus where
  ready : Option Bool
deriving DecidableEq, Repr

/-- One entry of `status.conditions`; `type` and `status` are read with
bare indexes, so both are optional. -/
structure PodCondition where
  type : Option String
  status : Option String
deriving DecidableEq, Repr

/-- The `status` dictionary of a pod. -/
structure PodStatus where
  containerStatuses : Option (List ContainerStatus)
  conditions : Option (List PodCondition)
deriving DecidableEq, Repr

/-- A pod record as the classifier reads it. -/
structure Pod where
  status : Option PodStatus
deriving DecidableEq, Repr

/-- The generator `any(container["ready"] is False for container in css)`:
scans left to right, raises on a missing `ready` entry when reached, stops
at the first container whose `ready` is the Python `False`. -/
def anyContainerNotReady : List ContainerStatus → Except Unit Bool
  | [] => Except.ok false
  | c :: cs =>
    match c.ready with
    | Option.none => Except.error ()
    | Option.some b =>
      if b = false then Except.ok true else anyContainerNotReady cs

/-- The generator
`any(condition["type"] == "Ready" and condition["status"] == "True" for condition in conds)`:
scans left to right; `type` is always read (raises when absent), `status`
only when `type` equals `"Ready"` (Python `and` short-circuits); stops at
the first `Ready`/`True` condition. -/
def anyReadyCondition : List PodCondition → Except Unit Bool
  | [] => Except.ok false
  | c :: cs =>
    match c.type with
    | Option.none => Except.error ()
    | Option.some t =>
      if t = "Ready" then
        match c.status with
        | Option.none => Except.error ()
        | Option.some s =>
          if s = "True" then Except.ok true else anyReadyCondition cs
      else anyReadyCondition cs

/-- The filter predicate of `not_running_pods`, with the evaluation order
and the lookup errors of the source: a falsy
`pod.get("status", {}).get("containerStatuses")` classifies the pod
not-running at once; otherwise the container generator runs, and only when
it yields no `False` entry does the condition generator run. -/
def podNotRunningE (pod : Pod) : Except Unit Bool :=
  match (pod.status.bind PodStatus.containerStatuses).getD [] with
  | [] => Except.ok true
  | c :: cs =>
    match anyContainerNotReady (c :: cs) with
    | Except.error e => Except.error e
    | Except.ok true => Except.ok true
    | Except.ok false =>
      match anyReadyCondition ((pod.status.bind PodStatus.conditions).getD []) with
      | Except.error e => Except.error e
      | Except.ok b => Except.ok (!b)

/-- The list comprehension of `not_running_pods` with its exception
behavior: pods are tested in order and the first lookup error aborts the
whole comprehension. -/
def not_running_podsE : List Pod → Except Unit (List Pod)
  | [] => Except.ok []
  | p :: ps =>
    match podNotRunningE p with
    | Except.error e => Except.error e
    | Except.ok b =>
      match not_running_podsE ps with
      | Except.error e => Except.error e
      | Except.ok rest => Except.ok (if b then p :: rest else rest)

/-- `container["ready"] is False` on a well-shaped entry. -/
def containerNotReady (c : ContainerStatus) : Bool :=
  match c.ready with
  | Option.some false => true
  | _ => false

/-- `condition["type"] == "Ready" and condition["status"] == "True"` on a
well-shaped entry. -/
def conditionIsReady (c : PodCondition) : Bool :=
  match c.type, c.status with
  | Option.some t, Option.some s => t == "Ready" && s == "True"
  | _, _ => false

/-- The classification rule of `LoggingCheck.not_running_pods` on
well-shaped pods: no (or empty) `containerStatuses`, or some container
whose `ready` is `False`, or no condition with `type` `"Ready"` and
`status` `"True"`. -/
def podNotRunning (pod : Pod) : Bool :=
  ((pod.status.bind PodStatus.containerStatuses).getD []).isEmpty ||
  ((pod.status.bind PodStatus.containerStatuses).getD []).any containerNotReady ||
  !(((pod.status.bind PodStatus.conditions).getD []).any conditionIsReady)

/-- Embedding of `LoggingCheck.not_running_pods` on well-shaped pods:
the pure filter of the list comprehension. -/
def not_running_pods (pods : List Pod) : List Pod :=
  pods.filter podNotRunning

/-- A pod record is well-shaped when every `containerStatuses` entry has a
`ready` field and every `conditions` entry has `type` and `status`. -/
def wellShapedPod (p : Pod) : Prop :=
  (∀ c ∈ (p.status.bind PodStatus.containerStatuses).getD [], c.ready.isSome = true) ∧
  (∀ c ∈ (p.status.bind PodStatus.conditions).getD [],
    c.type.isSome = true ∧ c.status.isSome = true)

instance (p : Pod) : Decidable (wellShapedPod p) := by
  unfold wellShapedPod; infer_instance

/-! ## Claims about the gates -/

/-- C5: the Node Eligibility Filter (`is_first_master`) returns true if and
only if the resolved primary-node list is non-empty and its first element
equals the resolved host identifying address. -/
theorem c5_is_first_master_iff (tv : TaskVars) :
    is_first_master tv = true ↔
      ((mastersResolved tv).isEmpty = false ∧
        PyVal.scalar ((mastersResolved tv).headD PyScalar.null) = hostnameResolved tv) := by
  simp [is_first_master, Bool.and_eq_true, Bool.not_eq_true', beq_iff_eq]

/-- A task-variable store with the host address and the masters group both
unset. -/
def tvBothUnset : TaskVars :=
  { ansible_ssh_host := Option.none
    groups_masters := Option.none
    openshift_hosted_logging_deploy := Option.none
    openshift_common_config_base := "" }

/-- C6 counterexample: with both variables unset the filter returns false,
not true: the host fallback is the whole one-element null list, while the
comparison uses the bare null first element of the masters fallback. -/
theorem c6_counterexample : is_first_master tvBothUnset = false := by decide

/-- C6 (amended): when the host identifying address and the primary-node
list are both unset, `is_first_master` returns false: the masters fallback
contributes the null placeholder as first element, the host fallback is the
one-element list containing the null placeholder, and the two differ. -/
theorem c6_both_unset_returns_false (tv : TaskVars)
    (h1 : tv.ansible_ssh_host = Option.none)
    (h2 : tv.groups_masters = Option.none) :
    is_first_master tv = false := by
  simp [is_first_master, mastersResolved, hostnameResolved, h1, h2, pyOr, pyTruthy]

/-- C6 witness: the amended statement evaluated on a concrete store. -/
theorem c6_both_unset_returns_false_witness :
    is_first_master
      { ansible_ssh_host := Option.none
        groups_masters := Option.none
        openshift_hosted_logging_deploy := Option.none
        openshift_common_config_base := "/etc/origin" } = false :=
  c6_both_unset_returns_false _ rfl rfl

/-- C7: when the logging-deployment feature flag is unset or `False`, the
Activation Gate (`is_active`) returns the Python `False`, whatever the base
predicate and the node eligibility are. -/
theorem c7_is_active_false_when_flag_unset_or_false (base_is_active : Bool) (tv : TaskVars)
    (h : tv.openshift_hosted_logging_deploy = Option.none ∨
      tv.openshift_hosted_logging_deploy = Option.some (PyVal.scalar (PyScalar.bool false))) :
    is_active base_is_active tv = PyVal.scalar (PyScalar.bool false) := by
  rcases h with h | h <;> simp [is_active, h]

/-- A store whose host is the first master and whose logging flag is
unset. -/
def tvPrimaryNoFlag : TaskVars :=
  { ansible_ssh_host := Option.some (PyVal.scalar (PyScalar.str "master1"))
    groups_masters := Option.some [PyScalar.str "master1", PyScalar.str "node1"]
    openshift_hosted_logging_deploy := Option.none
    openshift_common_config_base := "/etc/origin" }

/-- C7 witness: on a store where the node is the first master and the base
predicate is true, an unset flag still yields `False`. -/
theorem c7_is_active_witness :
    is_first_master tvPrimaryNoFlag = true ∧
    is_active true tvPrimaryNoFlag = PyVal.scalar (PyScalar.bool false) :=
  ⟨by decide, c7_is_active_false_when_flag_unset_or_false true tvPrimaryNoFlag (Or.inl rfl)⟩

/-! ## Claims about `exec_oc` -/

/-- An executor whose result is failed and carries no `result` field. -/
def emFailedNoResult : String → OcArgs → ExecResult :=
  fun _ _ => { failed := true, result := Option.none }

/-- An executor whose result is failed with an ordinary error text. -/
def emFailedDenied : String → OcArgs → ExecResult :=
  fun _ _ => { failed := true, result := Option.some "permission denied" }

/-- An executor whose result is failed with the missing-binary error
text. -/
def emFailedErrno : String → OcArgs → ExecResult :=
  fun _ _ => { failed := true, result := Option.some errnoMsg }

/-- An executor that succeeds with a fixed output. -/
def emSucceeds (output : String) : String → OcArgs → ExecResult :=
  fun _ _ => { failed := false, result := Option.some output }

/-- C3 counterexample: an executor result whose failed flag is true but
whose `result` field is absent makes `exec_oc` raise the bare lookup error
of `result["result"]`, not the domain error the claim promises. -/
theorem c3_counterexample :
    isDomainError (exec_oc emFailedNoResult "logging" "get pods" [] "/etc/origin") = false ∧
    exec_oc emFailedNoResult "logging" "get pods" [] "/etc/origin" =
      Except.error PException.keyError ∧
    (emFailedNoResult "ocutil" (ocArgs "logging" "get pods" [] "/etc/origin")).failed = true :=
  ⟨rfl, rfl, rfl⟩

/-- C3 (amended): `exec_oc` raises the domain error iff the executor
result's failed flag is true and its `result` field is present; when the
flag is true but the field is absent it fails with a key lookup error
instead; when the flag is not true it returns the output field, defaulting
to the empty string, and raises nothing. -/
theorem c3_exec_oc_raises_iff (execute_module : String → OcArgs → ExecResult)
    (ns cmd_str : String) (extra_args : List String) (config_base : String) :
    (isDomainError (exec_oc execute_module ns cmd_str extra_args config_base) = true ↔
      ((execute_module "ocutil" (ocArgs ns cmd_str extra_args config_base)).failed = true ∧
       (execute_module "ocutil" (ocArgs ns cmd_str extra_args config_base)).result.isSome = true)) ∧
    ((execute_module "ocutil" (ocArgs ns cmd_str extra_args config_base)).failed = true →
      (execute_module "ocutil" (ocArgs ns cmd_str extra_args config_base)).result = Option.none →
      exec_oc execute_module ns cmd_str extra_args config_base =
        Except.error PException.keyError) ∧
    ((execute_module "ocutil" (ocArgs ns cmd_str extra_args config_base)).failed = false →
      exec_oc execute_module ns cmd_str extra_args config_base =
        Except.ok ((execute_module "ocutil"
          (ocArgs ns cmd_str extra_args config_base)).result.getD "")) := by
  rcases hR : execute_module "ocutil" (ocArgs ns cmd_str extra_args config_base) with ⟨f, r⟩
  cases f <;> cases r <;> simp [exec_oc, hR, isDomainError]

/-- C3 witness: the amended statement evaluated on concrete executors. -/
theorem c3_exec_oc_witness :
    exec_oc emFailedNoResult "logging" "get pods" [] "/etc/origin" =
      Except.error PException.keyError ∧
    exec_oc (emSucceeds "pods json") "logging" "get pods" [] "/etc/origin" =
      Except.ok "pods json" :=
  ⟨(c3_exec_oc_raises_iff emFailedNoResult "logging" "get pods" [] "/etc/origin").2.1 rfl rfl,
   (c3_exec_oc_raises_iff (emSucceeds "pods json") "logging" "get pods" [] "/etc/origin").2.2 rfl⟩

/-! ## Claims about `exec_oc` message selection -/

/-- The special-cased message contains no capital U, used below to show the
generic diagnostic cannot occur inside it. -/
theorem masterMissingOcMsg_no_U : 'U' ∉ masterMissingOcMsg.data := by decide

/-- The generic diagnostic always contains the capital U of its fixed
opening words. -/
theorem genericOcError_has_U (cmd error : String) : 'U' ∈ (genericOcError cmd error).data := by
  unfold genericOcError
  rw [String.data_append, String.data_append, String.data_append]
  refine List.mem_append_left _ (List.mem_append_left _ (List.mem_append_left _ ?_))
  decide

/-- C4: on a failed executor result carrying error text, the raised message
is the special missing-binary message exactly when the text equals the
platform missing-file message, and that special message nowhere contains
the generic diagnostic; for any other text the message is the generic
diagnostic, which interpolates the literal command string and the raw error
text. -/
theorem c4_exec_oc_message_selection (execute_module : String → OcArgs → ExecResult)
    (ns cmd_str : String) (extra_args : List String) (config_base err : String)
    (hf : (execute_module "ocutil" (ocArgs ns cmd_str extra_args config_base)).failed = true)
    (hr : (execute_module "ocutil" (ocArgs ns cmd_str extra_args config_base)).result =
      Option.some err) :
    (err = errnoMsg →
      exec_oc execute_module ns cmd_str extra_args config_base =
        Except.error (PException.checkException masterMissingOcMsg) ∧
      ¬ ∃ p q : String, masterMissingOcMsg = p ++ genericOcError cmd_str err ++ q) ∧
    (err ≠ errnoMsg →
      exec_oc execute_module ns cmd_str extra_args config_base =
        Except.error (PException.checkException (genericOcError cmd_str err)) ∧
      ∃ p m : String, genericOcError cmd_str err = p ++ cmd_str ++ m ++ err) := by
  constructor
  · intro he
    constructor
    · simp [exec_oc, hf, hr, he]
    · rintro ⟨p, q, hpq⟩
      apply masterMissingOcMsg_no_U
      rw [hpq, String.data_append, String.data_append]
      exact List.mem_append_left _ (List.mem_append_right _ (genericOcError_has_U cmd_str err))
  · intro he
    constructor
    · simp [exec_oc, hf, hr, he]
    · exact ⟨"Unexpected error using `oc` to validate the logging stack components.\nError executing `oc ",
        "`:\n", rfl⟩

/-- C4 witness: the theorem evaluated on executors producing the special
error text and an ordinary error text. -/
theorem c4_exec_oc_message_witness :
    exec_oc emFailedErrno "logging" "get pods" [] "/etc/origin" =
      Except.error (PException.checkException masterMissingOcMsg) ∧
    exec_oc emFailedDenied "logging" "get pods" [] "/etc/origin" =
      Except.error (PException.checkException
        (genericOcError "get pods" "permission denied")) :=
  ⟨((c4_exec_oc_message_selection emFailedErrno "logging" "get pods" [] "/etc/origin"
      errnoMsg rfl rfl).1 rfl).1,
   ((c4_exec_oc_message_selection emFailedDenied "logging" "get pods" [] "/etc/origin"
      "permission denied" rfl rfl).2 (by decide)).1⟩

/-! ## Claims about `get_pods_for_component` -/

/-- C2: when the transport succeeds, a parse failure, a falsy parse, or an
object with a missing or empty `items` entry each yield the non-fatal
`(None, message)` pair with the component label interpolated, and an object
with a non-empty `items` list yields `(that list, None)`. -/
theorem c2_get_pods_for_component (execute_module : String → OcArgs → ExecResult)
    (json_loads : String → Option JValue)
    (ns logging_component config_base s : String)
    (hok : exec_oc execute_module ns
      ("get pods -l component=" ++ logging_component ++ " -o json") [] config_base =
        Except.ok s) :
    ((json_loads s = Option.none →
        get_pods_for_component execute_module json_loads ns logging_component config_base =
          Except.ok (Option.none, Option.some (noPodsMsg logging_component))) ∧
     (∀ v, json_loads s = Option.some v → jTruthy v = false →
        get_pods_for_component execute_module json_loads ns logging_component config_base =
          Except.ok (Option.none, Option.some (noPodsMsg logging_component))) ∧
     (∀ fields, json_loads s = Option.some (JValue.obj fields) →
        (jGet (JValue.obj fields) "items" = Option.none ∨
          jGet (JValue.obj fields) "items" = Option.some (JValue.arr [])) →
        get_pods_for_component execute_module json_loads ns logging_component config_base =
          Except.ok (Option.none, Option.some (noPodsMsg logging_component))) ∧
     (∀ fields items, json_loads s = Option.some (JValue.obj fields) →
        jGet (JValue.obj fields) "items" = Option.some (JValue.arr items) →
        items ≠ [] →
        get_pods_for_component execute_module json_loads ns logging_component config_base =
          Except.ok (Option.some (JValue.arr items), Option.none)) ∧
     (∃ p q : String, noPodsMsg logging_component = p ++ logging_component ++ q)) := by
  refine ⟨?_, ?_, ?_, ?_,
    ⟨"No pods were found for the \"", "\" logging component.", rfl⟩⟩
  · intro h
    simp [get_pods_for_component, hok, h]
  · intro v h hv
    simp [get_pods_for_component, hok, h, hv]
  · intro fields h hi
    by_cases hf : jTruthy (JValue.obj fields) = false
    · simp [get_pods_for_component, hok, h, hf]
    · rcases hi with hi | hi
      · simp [get_pods_for_component, hok, h, hf, hi]
      · simp [get_pods_for_component, hok, h, hf, hi]
        rfl
  · intro fields items h hi hne
    rcases fields with _ | ⟨f, fs⟩
    · simp [jGet, List.lookup] at hi
    · have hft : jTruthy (JValue.obj (f :: fs)) = true := by
        simp [jTruthy]
      have hit : jTruthy (JValue.arr items) = true := by
        simp [jTruthy, hne]
      simp [get_pods_for_component, hok, h, hft, hi, hit]

/-- The parse result used by the C2 witness: an object with a one-element
`items` list. -/
def jlOnePod : String → Option JValue :=
  fun _ => Option.some (JValue.obj [("items", JValue.arr [JValue.obj []])])

/-- C2 witness: the theorem evaluated on concrete executors and parsers,
hitting the non-empty branch and the parse-failure branch. -/
theorem c2_get_pods_witness :
    get_pods_for_component (emSucceeds "raw") jlOnePod "logging" "es" "/etc/origin" =
      Except.ok (Option.some (JValue.arr [JValue.obj []]), Option.none) ∧
    get_pods_for_component (emSucceeds "raw") (fun _ => Option.none)
        "logging" "es" "/etc/origin" =
      Except.ok (Option.none, Option.some (noPodsMsg "es")) :=
  ⟨(c2_get_pods_for_component (emSucceeds "raw") jlOnePod "logging" "es" "/etc/origin"
      "raw" rfl).2.2.2.1 [("items", JValue.arr [JValue.obj []])] [JValue.obj []]
      rfl rfl (List.cons_ne_nil _ _),
   (c2_get_pods_for_component (emSucceeds "raw") (fun _ => Option.none)
      "logging" "es" "/etc/origin" "raw" rfl).1 rfl⟩

/-! ## Claims about `not_running_pods` -/

/-- The container predicate holds exactly on a present `ready` field equal
to `False`. -/
theorem containerNotReady_eq_true (c : ContainerStatus) :
    containerNotReady c = true ↔ c.ready = Option.some false := by
  rcases c with ⟨r⟩
  rcases r with _ | b
  · simp [containerNotReady]
  · cases b <;> simp [containerNotReady]

/-- The condition predicate holds exactly on a present `Ready`/`True`
pair. -/
theorem conditionIsReady_eq_true (c : PodCondition) :
    conditionIsReady c = true ↔
      (c.type = Option.some "Ready" ∧ c.status = Option.some "True") := by
  rcases c with ⟨t, s⟩
  rcases t with _ | t <;> rcases s with _ | s <;>
    simp [conditionIsReady]

/-- Characterization of the well-shaped classification rule. -/
theorem podNotRunning_eq_true (pod : Pod) :
    podNotRunning pod = true ↔
      ((pod.status.bind PodStatus.containerStatuses).getD [] = [] ∨
       (∃ c ∈ (pod.status.bind PodStatus.containerStatuses).getD [],
          c.ready = Option.some false) ∨
       ¬ ∃ c ∈ (pod.status.bind PodStatus.conditions).getD [],
          c.type = Option.some "Ready" ∧ c.status = Option.some "True") := by
  simp [podNotRunning, Bool.or_eq_true, List.isEmpty_iff, List.any_eq_true,
    containerNotReady_eq_true, conditionIsReady_eq_true, Bool.not_eq_true']
  exact or_assoc

/-- C1: a pod of the input list is in the `not_running_pods` result iff its
`containerStatuses` are absent or empty, or some container has `ready`
equal to `False`, or no condition has `type` `"Ready"` together with
`status` `"True"`. -/
theorem c1_not_running_pods_membership (pods : List Pod) (pod : Pod) (hmem : pod ∈ pods) :
    pod ∈ not_running_pods pods ↔
      ((pod.status.bind PodStatus.containerStatuses).getD [] = [] ∨
       (∃ c ∈ (pod.status.bind PodStatus.containerStatuses).getD [],
          c.ready = Option.some false) ∨
       ¬ ∃ c ∈ (pod.status.bind PodStatus.conditions).getD [],
          c.type = Option.some "Ready" ∧ c.status = Option.some "True") := by
  rw [not_running_pods, List.mem_filter]
  simp only [hmem, true_and]
  exact podNotRunning_eq_true pod

/-- A pod record with no `status` entry at all. -/
def podNoStatus : Pod := { status := Option.none }

/-- C1 witness: a pod without `status` is classified not running. -/
theorem c1_not_running_pods_witness :
    podNoStatus ∈ not_running_pods [podNoStatus] :=
  (c1_not_running_pods_membership [podNoStatus] podNoStatus
    (List.mem_singleton.mpr rfl)).mpr (Or.inl rfl)

/-- C9: `not_running_pods` is a sublist of its input: every returned pod
occurs in the input with no duplication or alteration and in the input
order. -/
theorem c9_not_running_pods_sublist (pods : List Pod) :
    List.Sublist (not_running_pods pods) pods :=
  List.filter_sublist pods

/-- A pod with a present-but-empty `containerStatuses` list and a
`Ready`/`True` condition. -/
def podEmptyStatusesReady : Pod :=
  { status := Option.some
      { containerStatuses := Option.some []
        conditions := Option.some
          [{ type := Option.some "Ready", status := Option.some "True" }] } }

/-- C8 counterexample: this pod vacuously has every container ready and
carries a `Ready`/`True` condition, yet the classifier keeps it in the
not-running result, because an empty `containerStatuses` list is falsy and
treated like an absent one. -/
theorem c8_counterexample :
    not_running_pods [podEmptyStatusesReady] = [podEmptyStatusesReady] := rfl

/-- C8 (amended): a pod of the input whose `containerStatuses` list is
non-empty with every `ready` flag `True`, and which has at least one
`Ready`/`True` condition, is excluded from the not-running result; with an
empty `containerStatuses` list the pod is instead included, the empty list
being treated like an absent one. -/
theorem c8_all_ready_excluded (pods : List Pod) (pod : Pod) (hmem : pod ∈ pods)
    (hne : (pod.status.bind PodStatus.containerStatuses).getD [] ≠ [])
    (hready : ∀ c ∈ (pod.status.bind PodStatus.containerStatuses).getD [],
      c.ready = Option.some true)
    (hcond : ∃ c ∈ (pod.status.bind PodStatus.conditions).getD [],
      c.type = Option.some "Ready" ∧ c.status = Option.some "True") :
    pod ∉ not_running_pods pods := by
  intro hin
  rcases (c1_not_running_pods_membership pods pod hmem).mp hin with h | h | h
  · exact hne h
  · rcases h with ⟨c, hc, hcf⟩
    have hct := hready c hc
    rw [hct] at hcf
    simp at hcf
  · exact h hcond

/-- A pod with one ready container and a `Ready`/`True` condition. -/
def podRunning : Pod :=
  { status := Option.some
      { containerStatuses := Option.some [{ ready := Option.some true }]
        conditions := Option.some
          [{ type := Option.some "Ready", status := Option.some "True" }] } }

/-- C8 witness: the amended statement evaluated on a concrete running
pod. -/
theorem c8_all_ready_excluded_witness :
    podRunning ∉ not_running_pods [podRunning] :=
  c8_all_ready_excluded [podRunning] podRunning (List.mem_singleton.mpr rfl)
    (by decide) (by decide) (by decide)

/-- On containers that all carry a `ready` field, the fallible container
generator agrees with the pure `any` of the container predicate. -/
theorem anyContainerNotReady_ok (cs : List ContainerStatus)
    (h : ∀ c ∈ cs, c.ready.isSome = true) :
    anyContainerNotReady cs = Except.ok (cs.any containerNotReady) := by
  induction cs with
  | nil => rfl
  | cons c cs ih =>
    have hc := h c (List.mem_cons_self c cs)
    rcases hx : c.ready with _ | b
    · rw [hx] at hc
      simp at hc
    · cases b
      · simp [anyContainerNotReady, hx, containerNotReady]
      · simp [anyContainerNotReady, hx, containerNotReady]
        exact ih fun x hxm => h x (List.mem_cons_of_mem _ hxm)

/-- On conditions that all carry `type` and `status` fields, the fallible
condition generator agrees with the pure `any` of the condition
predicate. -/
theorem anyReadyCondition_ok (cs : List PodCondition)
    (h : ∀ c ∈ cs, c.type.isSome = true ∧ c.status.isSome = true) :
    anyReadyCondition cs = Except.ok (cs.any conditionIsReady) := by
  induction cs with
  | nil => rfl
  | cons c cs ih =>
    have hc := h c (List.mem_cons_self c cs)
    have ihs := ih fun x hxm => h x (List.mem_cons_of_mem _ hxm)
    rcases ht : c.type with _ | t
    · rw [ht] at hc
      simp at hc
    · rcases hs : c.status with _ | s
      · rw [hs] at hc
        simp at hc
      · by_cases hR : t = "Ready"
        · by_cases hT : s = "True"
          · simp [anyReadyCondition, ht, hs, hR, hT, conditionIsReady]
          · simp [anyReadyCondition, ht, hs, hR, hT, conditionIsReady, ihs]
        · simp [anyReadyCondition, ht, hs, hR, conditionIsReady, ihs]

/-- On a well-shaped pod the fallible filter predicate agrees with the pure
classification rule. -/
theorem podNotRunningE_ok (pod : Pod) (h : wellShapedPod pod) :
    podNotRunningE pod = Except.ok (podNotRunning pod) := by
  obtain ⟨h1, h2⟩ := h
  unfold podNotRunningE podNotRunning
  rcases hcs : (pod.status.bind PodStatus.containerStatuses).getD [] with _ | ⟨c, cs⟩
  · simp
  · rw [hcs] at h1
    dsimp only
    rw [anyContainerNotReady_ok _ h1, anyReadyCondition_ok _ h2]
    cases hany : (c :: cs).any containerNotReady <;> simp [hany]

/-- A pod whose second container entry lacks a `ready` field, behind a
first entry whose `ready` is `False`. -/
def podLazyBad : Pod :=
  { status := Option.some
      { containerStatuses := Option.some
          [{ ready := Option.some false }, { ready := Option.none }]
        conditions := Option.some [] } }

/-- C10 counterexample: this pod has a non-empty `containerStatuses` list
containing an entry without a `ready` field, yet the classifier returns a
classification rather than a lookup error, because the generator stops at
the earlier `ready = False` entry. -/
theorem c10_counterexample :
    not_running_podsE [podLazyBad] = Except.ok [podLazyBad] := rfl

/-- C10 (amended): the classifier evaluates lazily, so a malformed entry
only raises when the scan actually reaches it; under the precondition that
every `containerStatuses` entry has `ready` and every `conditions` entry
has `type` and `status`, the error branch is unreachable and the
comprehension returns exactly the pure filter result. -/
theorem c10_not_running_podsE_ok (pods : List Pod) (h : ∀ p ∈ pods, wellShapedPod p) :
    not_running_podsE pods = Except.ok (not_running_pods pods) := by
  induction pods with
  | nil => rfl
  | cons p ps ih =>
    have hp := podNotRunningE_ok p (h p (List.mem_cons_self p ps))
    have hps := ih fun q hq => h q (List.mem_cons_of_mem _ hq)
    simp only [not_running_podsE, hp, hps, not_running_pods, List.filter_cons]

/-- C10 witness: the amended statement evaluated on a concrete well-shaped
pod list. -/
theorem c10_not_running_podsE_ok_witness :
    not_running_podsE [podRunning, podNoStatus, podEmptyStatusesReady] =
      Except.ok (not_running_pods [podRunning, podNoStatus, podEmptyStatusesReady]) :=
  c10_not_running_podsE_ok [podRunning, podNoStatus, podEmptyStatusesReady] (by decide)
